import Mathlib

/-!
Verification development for the steel-timer bot (`src/bot.py`).

The bot polls a Google-Sheet table of countdown timers every 150 seconds
(`timer_checker`), decides staged threshold alerts per row, broadcasts them
to configured Discord channels (`broadcast_alert`), and persists stage and
status transitions back to the sheet (`update_alert_stage`,
`mark_timer_done`).  The chat command `!강철 N` (`cmd_steel` below) creates,
queries or restarts a timer row.

Shallow embedding conventions:
* The sheet is a `List (List String)` of raw cell values, exactly as
  returned by `get_all_values()` (1-based row indices in effects, like
  gspread's `update_cell`).
* Every side effect (cell write, Discord send attempt, error log, command
  reply) is recorded as an `Effect`; functions return the ordered list of
  effects they would perform.  Reads (sheet snapshot, mentions row, channel
  resolution, send success) are inputs (`Cfg` fields / arguments).
* `datetime` values are modelled as integer seconds on the proleptic
  Gregorian epoch scale (`daysFromCivil`); sub-second precision, which the
  Python `datetime` carries in `utcnow()`, is dropped (the spec declares
  sub-second timing out of scope).
* All functions are total; a Python path that raises nothing and returns
  normally is a total Lean function producing its effect list.
-/

namespace SteelBot

/-- One observable side effect of the bot, in program order.
`updateCell r c v` models `timer_sheet.update_cell(r, c, v)` (1-based row
and column); `sendAttempt cid msg` models `channel.send(message)` being
attempted on the resolved channel `cid`; `sendError cid` models the
`print` in the `except` branch of `broadcast_alert` (the exception text is
elided); `log s` models a bare `print(s)`; `reply s` models `ctx.send(s)`
in a command handler. -/
inductive Effect where
  | updateCell (row col : Nat) (val : String)
  | sendAttempt (cid : Int) (msg : String)
  | sendError (cid : Int)
  | log (msg : String)
  | reply (msg : String)
deriving DecidableEq

/-- Ambient configuration read by the bot at dispatch time:
`alertChannelIds` is the parsed `ALERT_CHANNEL_ID` list; `getChannel cid`
tells whether `bot.get_channel(cid)` resolves (returns a channel object
rather than `None`); `sendOk cid` tells whether `channel.send` on that
channel succeeds (does not raise); `mentionsRow` is row 2 of the mentions
sheet as read by `get_steel_mentions`. -/
structure Cfg where
  alertChannelIds : List Int
  getChannel : Int → Bool
  sendOk : Int → Bool
  mentionsRow : List String

/-! ## String utilities (models of the Python primitives used) -/

/-- Model of Python `str.strip()`: drop leading and trailing whitespace. -/
def pyStrip (s : String) : String :=
  String.mk (((s.data.dropWhile Char.isWhitespace).reverse.dropWhile Char.isWhitespace).reverse)

/-- Model of Python `str.replace(" ", "")`: remove every space character
(only U+0020; other whitespace such as tabs is untouched, exactly as in
the source). -/
def removeSpaces (s : String) : String :=
  String.mk (s.data.filter (fun c => c != ' '))

/-- Numeric value of a list of decimal digit characters (most significant
first). -/
def digitsVal (cs : List Char) : Nat :=
  cs.foldl (fun acc c => acc * 10 + (c.toNat - 48)) 0

/-- All characters are ASCII decimal digits (model of the digit test done
by `str.isdigit` / `int(...)` on the values this sheet holds). -/
def allDigits (cs : List Char) : Bool :=
  cs.all (fun c => c.isDigit)

/-- Model of Python `int(s)` on a string cell: strip whitespace, optional
sign, then a non-empty run of decimal digits; anything else raises, i.e.
returns `none` here.  (Python's underscore digit grouping is not modelled;
the sheet never contains it.) -/
def pyInt (s : String) : Option Int :=
  match (pyStrip s).data with
  | [] => none
  | '+' :: rest =>
      if rest ≠ [] ∧ allDigits rest then some ((digitsVal rest : Nat) : Int) else none
  | '-' :: rest =>
      if rest ≠ [] ∧ allDigits rest then some (-((digitsVal rest : Nat) : Int)) else none
  | cs =>
      if allDigits cs then some ((digitsVal cs : Nat) : Int) else none

/-! ## Calendar arithmetic (model of `datetime` at second precision) -/

/-- Gregorian leap-year test. -/
def isLeap (y : Nat) : Bool :=
  (y % 4 == 0 && y % 100 != 0) || y % 400 == 0

/-- Days in a month of the proleptic Gregorian calendar. -/
def daysInMonth (y m : Nat) : Nat :=
  if m = 2 then (if isLeap y then 29 else 28)
  else if m = 4 ∨ m = 6 ∨ m = 9 ∨ m = 11 then 30
  else 31

/-- Days from 1970-01-01 to the civil date `y-m-d` (valid for `y ≥ 1`,
`1 ≤ m ≤ 12`, `1 ≤ d`); the standard era-based algorithm. -/
def daysFromCivil (y m d : Nat) : Int :=
  let y' := if m ≤ 2 then y - 1 else y
  let era := y' / 400
  let yoe := y' % 400
  let mp := if 2 < m then m - 3 else m + 9
  let doy := (153 * mp + 2) / 5 + (d - 1)
  let doe := yoe * 365 + yoe / 4 - yoe / 100 + doy
  ((era * 146097 + doe : Nat) : Int) - 719468

/-- Epoch seconds of a civil timestamp. -/
def epochSeconds (y mo d h mi s : Nat) : Int :=
  daysFromCivil y mo d * 86400 + ((h * 3600 + mi * 60 + s : Nat) : Int)

/-- Parse the 19-character canonical timestamp `YYYY-MM-DD{sep}HH:MM:SS`
with field validation, returning epoch seconds.  This models the two
textual formats the source accepts: `datetime.fromisoformat` for the
`T`-separated variant and `strptime("%Y-%m-%d %H:%M:%S")` for the
space-separated one, in the zero-padded form the bot itself writes with
`strftime` (exotic ISO-8601 extensions accepted by `fromisoformat` are
not modelled). -/
def parseCanonical (sep : Char) (cs : List Char) : Option Int :=
  match cs with
  | [y1, y2, y3, y4, '-', m1, m2, '-', d1, d2, sp, h1, h2, ':', n1, n2, ':', s1, s2] =>
      if sp = sep ∧ allDigits [y1, y2, y3, y4, m1, m2, d1, d2, h1, h2, n1, n2, s1, s2] then
        let y := digitsVal [y1, y2, y3, y4]
        let mo := digitsVal [m1, m2]
        let d := digitsVal [d1, d2]
        let h := digitsVal [h1, h2]
        let mi := digitsVal [n1, n2]
        let sec := digitsVal [s1, s2]
        if 1 ≤ y ∧ 1 ≤ mo ∧ mo ≤ 12 ∧ 1 ≤ d ∧ d ≤ daysInMonth y mo ∧
            h ≤ 23 ∧ mi ≤ 59 ∧ sec ≤ 59 then
          some (epochSeconds y mo d h mi sec)
        else none
      else none
  | _ => none

/-- `parse_datetime` from `bot.py`: empty string is `None`; otherwise strip,
then parse the `T`-separated variant if a `T` occurs, else the
space-separated variant; any parse failure yields `None`. -/
def parse_datetime (s : String) : Option Int :=
  if s = "" then none
  else
    let t := pyStrip s
    if t.data.contains 'T' then parseCanonical 'T' t.data
    else parseCanonical ' ' t.data

/-! ## Row field access (mirrors the padding to 5 cells and the
`or`-defaults in `timer_checker` / `get_timer_data`) -/

/-- Cell 1 of a row: the timer name. -/
def nameField (row : List String) : String := row.getD 0 ""

/-- Cell 2: the raw start-time string. -/
def startField (row : List String) : String := row.getD 1 ""

/-- Cell 3: the raw duration string. -/
def durField (row : List String) : String := row.getD 2 ""

/-- Cell 4 with the `or ""` default: the status string. -/
def statusField (row : List String) : String := row.getD 3 ""

/-- Cell 5 with the `or "NONE"` default: the persisted alert stage. -/
def stageField (row : List String) : String :=
  if row.getD 4 "" = "" then "NONE" else row.getD 4 ""

/-! ## Stage order -/

/-- Model of `order.index(s)` for `order = ["NONE","4H","2H","1H","30M","DONE"]`
inside `stage_allowed`: the position, or `none` where Python raises
`ValueError`. -/
def stageIndex? (s : String) : Option Nat :=
  if s = "NONE" then some 0
  else if s = "4H" then some 1
  else if s = "2H" then some 2
  else if s = "1H" then some 3
  else if s = "30M" then some 4
  else if s = "DONE" then some 5
  else none

/-- `stage_allowed(prev, current)` from `timer_checker`: compare positions
in the stage order; if either value is unrecognized (`ValueError`), the
transition is allowed (`return True` in the `except` branch). -/
def stage_allowed (prev current : String) : Bool :=
  match stageIndex? prev, stageIndex? current with
  | some i, some j => decide (i < j)
  | _, _ => true

/-! ## Store write helpers (each returns its `update_cell` effects) -/

/-- `mark_timer_done(row)`: set status (col 4) and stage (col 5) to DONE. -/
def mark_timer_done (row : Nat) : List Effect :=
  [Effect.updateCell row 4 ("DONE"), Effect.updateCell row 5 ("DONE")]

/-- `update_alert_stage(row, stage)`: write the stage cell (col 5). -/
def update_alert_stage (row : Nat) (stage : String) : List Effect :=
  [Effect.updateCell row 5 stage]

/-- `set_timer(row, duration_sec)`: write start time (col 2), duration
(col 3), status RUNNING (col 4) and stage NONE (col 5).  `nowStr` is the
`strftime`-rendered current time the Python writes. -/
def set_timer (row : Nat) (nowStr : String) (duration_sec : Int) : List Effect :=
  [Effect.updateCell row 2 nowStr,
   Effect.updateCell row 3 (toString duration_sec),
   Effect.updateCell row 4 ("RUNNING"),
   Effect.updateCell row 5 ("NONE")]

/-! ## Mentions and broadcasting -/

/-- `get_steel_mentions()`: from slot B onward of the mentions row, strip
each value, skip empties, keep the all-digit ones as ids. -/
def get_steel_mentions (row : List String) : List Nat :=
  (row.drop 1).filterMap (fun v =>
    let t := pyStrip v
    if t = "" then none
    else if t.data ≠ [] ∧ allDigits t.data then some (digitsVal t.data)
    else none)

/-- `format_mentions_for_steel()`: `" <@id1> <@id2> ..."`, or `""` when the
mentions list is empty. -/
def format_mentions_for_steel (cfg : Cfg) : String :=
  let ids := get_steel_mentions cfg.mentionsRow
  if ids = [] then ""
  else " " ++ String.intercalate (" ") (ids.map (fun uid => "<@" ++ toString uid ++ ">"))

/-- The per-channel body of the `for cid in ALERT_CHANNEL_IDS` loop in
`broadcast_alert`: skip silently when `bot.get_channel(cid)` is `None`,
otherwise attempt the send and log on exception. -/
def loopChannels (cfg : Cfg) (cids : List Int) (msg : String) : List Effect :=
  match cids with
  | [] => []
  | cid :: rest =>
      (if cfg.getChannel cid then
        Effect.sendAttempt cid msg ::
          (if cfg.sendOk cid then [] else [Effect.sendError cid])
      else []) ++ loopChannels cfg rest msg

/-- `broadcast_alert(message)`: with an empty channel list, print the error
line and return; otherwise run the per-channel loop. -/
def broadcast_alert (cfg : Cfg) (msg : String) : List Effect :=
  if cfg.alertChannelIds = [] then
    [Effect.log ("ERROR: Alert channel list is empty.")]
  else loopChannels cfg cfg.alertChannelIds msg

/-! ## The poll loop (`timer_checker`) -/

/-- The "timer ended" message of `timer_checker`. -/
def endedMsg (cfg : Cfg) (name : String) : String :=
  "⏰ **" ++ name ++ " 타이머 종료!**" ++ format_mentions_for_steel cfg

/-- The threshold message of `timer_checker` for a given label
(`4시간`, `2시간`, `1시간`, `30분`). -/
def thresholdMsg (cfg : Cfg) (name label : String) : String :=
  "⏳ **" ++ name ++ " 타이머 " ++ label ++ " 전입니다!**" ++ format_mentions_for_steel cfg

/-- One threshold alert block of `timer_checker`: broadcast the message,
then write the new stage cell (in that order, exactly as the source). -/
def thresholdAlert (cfg : Cfg) (rowIdx : Nat) (name label stageName : String) : List Effect :=
  broadcast_alert cfg (thresholdMsg cfg name label) ++ update_alert_stage rowIdx stageName

/-- The four sequential threshold checks of `timer_checker` (4H, 2H, 1H,
30M), with the local `alert_stage` reassignment after each firing branch,
exactly as in the source. -/
def runThresholds (cfg : Cfg) (rowIdx : Nat) (name : String) (left_sec : Int)
    (stage0 : String) : List Effect :=
  let c4 := decide (left_sec ≤ 4 * 3600) && decide (2 * 3600 < left_sec) &&
    stage_allowed stage0 ("4H")
  let e4 := if c4 then thresholdAlert cfg rowIdx name ("4시간") ("4H") else []
  let s4 := if c4 then "4H" else stage0
  let c2 := decide (left_sec ≤ 2 * 3600) && decide (1 * 3600 < left_sec) &&
    stage_allowed s4 ("2H")
  let e2 := if c2 then thresholdAlert cfg rowIdx name ("2시간") ("2H") else []
  let s2 := if c2 then "2H" else s4
  let c1 := decide (left_sec ≤ 1 * 3600) && decide (30 * 60 < left_sec) &&
    stage_allowed s2 ("1H")
  let e1 := if c1 then thresholdAlert cfg rowIdx name ("1시간") ("1H") else []
  let s1 := if c1 then "1H" else s2
  let c30 := decide (left_sec ≤ 30 * 60) && stage_allowed s1 ("30M")
  let e30 := if c30 then thresholdAlert cfg rowIdx name ("30분") ("30M") else []
  e4 ++ e2 ++ e1 ++ e30

/-- The body of `timer_checker`'s per-row loop for row number `rowIdx`
(1-based sheet row): skip non-RUNNING rows, skip rows whose start time or
duration fails to parse, fire the terminal DONE path when no time is left
(broadcast, then `mark_timer_done`), otherwise run the threshold chain. -/
def processRow (cfg : Cfg) (now : Int) (rowIdx : Nat) (row : List String) : List Effect :=
  if statusField row ≠ "RUNNING" then []
  else
    match parse_datetime (startField row) with
    | none => []
    | some start_dt =>
        match pyInt (durField row) with
        | none => []
        | some duration =>
            let left_sec := start_dt + duration - now
            if left_sec ≤ 0 then
              if statusField row = "RUNNING" then
                broadcast_alert cfg (endedMsg cfg (nameField row)) ++ mark_timer_done rowIdx
              else []
            else
              runThresholds cfg rowIdx (nameField row) left_sec (stageField row)

/-- The `for row_idx, row in enumerate(data[1:], start=2)` loop of
`timer_checker`, accumulating effects in program order. -/
def loopRows (cfg : Cfg) (now : Int) : Nat → List (List String) → List Effect
  | _, [] => []
  | idx, row :: rest => processRow cfg now idx row ++ loopRows cfg now (idx + 1) rest

/-- One tick of `timer_checker`: read the whole sheet and process every
data row (row 1 is the header), starting at sheet row 2. -/
def timer_checker (cfg : Cfg) (now : Int) (data : List (List String)) : List Effect :=
  loopRows cfg now 2 (data.drop 1)

/-! ## Key lookup and the `!강철` command -/

/-- The nested loop of `find_row`: first (1-based) row having a cell equal
to the target after space removal. -/
def findRowAux (target : String) : Nat → List (List String) → Option Nat
  | _, [] => none
  | idx, row :: rest =>
      if row.any (fun cell => removeSpaces cell = target) then some idx
      else findRowAux target (idx + 1) rest

/-- `find_row(keyword)`: whitespace-insensitive-by-spaces lookup over the
whole sheet, returning the 1-based row number of the first match. -/
def find_row (data : List (List String)) (keyword : String) : Option Nat :=
  findRowAux (removeSpaces keyword) 1 data

/-- `get_timer_data(row)`: parse the five fields of a 1-based row;
`none` when the start time or the duration fails to parse. -/
def get_timer_data (data : List (List String)) (row : Nat) :
    Option (String × Int × Int × String × String) :=
  let values := data.getD (row - 1) []
  match parse_datetime (startField values) with
  | none => none
  | some start_dt =>
      match pyInt (durField values) with
      | none => none
      | some duration =>
          some (nameField values, start_dt, duration, statusField values, stageField values)

/-- The `!강철 N` command handler (`강철` in `bot.py`): create a fresh row
and 12-hour timer when the key is absent; restart when the row is inert or
not RUNNING; when RUNNING, report the remaining time, or, if the timer has
already run out, only reply that it ended.  `nowStr` is the rendered
current time that `set_timer` writes. -/
def cmd_steel (now : Int) (nowStr : String) (data : List (List String))
    (number : String) : List Effect :=
  let key := "강철" ++ number
  match find_row data key with
  | none =>
      let row := data.length + 1
      Effect.updateCell row 1 key ::
        (set_timer row nowStr (12 * 60 * 60) ++
          [Effect.reply ("⏳ **" ++ key ++ " 타이머가 시트에 새로 생성되고, 12시간 타이머를 시작했습니다.**")])
  | some row =>
      match get_timer_data data row with
      | none =>
          set_timer row nowStr (12 * 60 * 60) ++
            [Effect.reply ("⏳ **" ++ key ++ " 타이머를 새로 시작했습니다! (12시간)**")]
      | some (_, start_dt, duration, status, _) =>
          if status = "RUNNING" then
            let sec := start_dt + duration - now
            if sec ≤ 0 then
              [Effect.reply ("🔔 " ++ key ++ " 타이머는 이미 종료되었습니다.")]
            else
              let totalMin := sec.toNat / 60
              let h := totalMin / 60
              let m := totalMin % 60
              let s := sec.toNat % 60
              [Effect.reply ("🕒 **" ++ key ++ " 남은 시간:** " ++ toString h ++ "시간 " ++
                toString m ++ "분 " ++ toString s ++ "초")]
          else
            set_timer row nowStr (12 * 60 * 60) ++
              [Effect.reply ("⏳ **" ++ key ++ " 타이머를 다시 시작했습니다! (12시간)**")]

/-! ## Spec-side definitions (used to state the claims) -/

/-- The claims' total stage order, extended fail-open: a recognized stage
maps to its position `0..5` in `NONE<4H<2H<1H<30M<DONE`, an unrecognized
one to `-1`, i.e. strictly less than every defined stage. -/
def claimOrder (s : String) : Int :=
  match stageIndex? s with
  | some i => (i : Nat)
  | none => -1

/-- Modelled from the claim's words (C3): the most advanced stage `S` of
the threshold table `[(4h, 4H), (2h, 2H), (1h, 1H), (30m, 30M)]` with
`remaining ≤ cutoff(S)` and `order(stage) < order(S)`, scanned from the
most advanced stage downward. -/
def specMostAdvancedStage (left : Int) (st : String) : Option String :=
  if left ≤ 1800 ∧ claimOrder st < 4 then some ("30M")
  else if left ≤ 3600 ∧ claimOrder st < 3 then some ("1H")
  else if left ≤ 7200 ∧ claimOrder st < 2 then some ("2H")
  else if left ≤ 14400 ∧ claimOrder st < 1 then some ("4H")
  else none

/-- The Korean message label belonging to each threshold stage. -/
def labelFor (v : String) : String :=
  if v = "4H" then "4시간"
  else if v = "2H" then "2시간"
  else if v = "1H" then "1시간"
  else "30분"

/-- Modelled from the claim's words (C7): remove every whitespace
character (not only spaces). -/
def stripAllWhitespace (s : String) : String :=
  String.mk (s.data.filter (fun c => !c.isWhitespace))

/-- Is this effect a persisting sheet write? -/
def isUpdateCell : Effect → Bool
  | .updateCell _ _ _ => true
  | _ => false

/-- Is this effect a notification-dispatch attempt? -/
def isSendAttempt : Effect → Bool
  | .sendAttempt _ _ => true
  | _ => false

/-- Does a dispatch attempt occur strictly before some persisting write in
this effect list? -/
def sendBeforePersistExists : List Effect → Bool
  | [] => false
  | e :: rest => (isSendAttempt e && rest.any isUpdateCell) || sendBeforePersistExists rest

/-- Does a persisting write occur strictly before some dispatch attempt in
this effect list? -/
def persistBeforeSendExists : List Effect → Bool
  | [] => false
  | e :: rest => (isUpdateCell e && rest.any isSendAttempt) || persistBeforeSendExists rest

/-- The stage values written (column 5), in order. -/
def stageWrites (es : List Effect) : List String :=
  es.filterMap (fun e =>
    match e with
    | .updateCell _ 5 v => some v
    | _ => none)

/-- Does the list contain the status-to-DONE write (column 4, `"DONE"`),
i.e. the terminal `Advance(DONE)` output? -/
def emitsDone (es : List Effect) : Bool :=
  es.any (fun e =>
    match e with
    | .updateCell _ 4 v => v == "DONE"
    | _ => false)

/-! ## Structural lemmas -/

theorem stageIndex?_bound {s : String} {i : Nat} (h : stageIndex? s = some i) : i ≤ 5 := by
  unfold stageIndex? at h
  split_ifs at h <;> simp_all <;> omega

theorem claimOrder_mem (s : String) :
    claimOrder s = -1 ∨ claimOrder s = 0 ∨ claimOrder s = 1 ∨ claimOrder s = 2 ∨
      claimOrder s = 3 ∨ claimOrder s = 4 ∨ claimOrder s = 5 := by
  unfold claimOrder stageIndex?
  split_ifs <;> simp

theorem stage_allowed_eq_claimOrder (st cur : String) (j : Nat)
    (h : stageIndex? cur = some j) :
    stage_allowed st cur = decide (claimOrder st < (j : Int)) := by
  unfold stage_allowed claimOrder
  rw [h]
  cases hst : stageIndex? st with
  | none =>
      have : (-1 : Int) < (j : Int) := by omega
      simp [this]
  | some i => simp

theorem loopChannels_no_update (cfg : Cfg) (cids : List Int) (msg : String) :
    ∀ e ∈ loopChannels cfg cids msg, isUpdateCell e = false := by
  induction cids with
  | nil => simp [loopChannels]
  | cons cid rest ih =>
      intro e he
      simp only [loopChannels, List.mem_append] at he
      rcases he with he | he
      · split_ifs at he with h1 h2
        · simp only [List.mem_singleton] at he
          subst he
          rfl
        · simp only [List.mem_cons, List.mem_singleton, List.not_mem_nil, or_false] at he
          rcases he with rfl | rfl <;> rfl
        · simp at he
      · exact ih e he

theorem broadcast_no_update (cfg : Cfg) (msg : String) :
    ∀ e ∈ broadcast_alert cfg msg, isUpdateCell e = false := by
  unfold broadcast_alert
  split_ifs with h
  · simp [isUpdateCell]
  · exact loopChannels_no_update cfg cfg.alertChannelIds msg

theorem persistBeforeSend_append {A B : List Effect}
    (hA : ∀ e ∈ A, isUpdateCell e = false)
    (hB : ∀ e ∈ B, isSendAttempt e = false) :
    persistBeforeSendExists (A ++ B) = false := by
  induction A with
  | nil =>
      simp only [List.nil_append]
      induction B with
      | nil => rfl
      | cons b bs ihb =>
          have hb := hB b (by simp)
          simp only [persistBeforeSendExists, Bool.or_eq_false_iff]
          constructor
          · have : bs.any isSendAttempt = false := by
              rw [List.any_eq_false]
              intro x hx
              exact (by simpa using hB x (by simp [hx]))
            simp [this]
          · exact ihb (fun e he => hB e (by simp [he]))
  | cons a as iha =>
      have ha := hA a (by simp)
      simp only [List.cons_append, persistBeforeSendExists, ha, Bool.false_and,
        Bool.false_or]
      exact iha (fun e he => hA e (by simp [he]))

theorem no_update_stageWrites {es : List Effect}
    (h : ∀ e ∈ es, isUpdateCell e = false) : stageWrites es = [] := by
  induction es with
  | nil => rfl
  | cons e rest ih =>
      have he := h e (by simp)
      cases e <;> simp_all [stageWrites, isUpdateCell]

theorem no_update_emitsDone {es : List Effect}
    (h : ∀ e ∈ es, isUpdateCell e = false) : emitsDone es = false := by
  induction es with
  | nil => rfl
  | cons e rest ih =>
      have he := h e (by simp)
      cases e <;> simp_all [emitsDone, isUpdateCell]

theorem stageWrites_append (A B : List Effect) :
    stageWrites (A ++ B) = stageWrites A ++ stageWrites B := by
  simp [stageWrites, List.filterMap_append]

theorem emitsDone_append (A B : List Effect) :
    emitsDone (A ++ B) = (emitsDone A || emitsDone B) := by
  simp [emitsDone, List.any_append]

theorem stageWrites_thresholdAlert (cfg : Cfg) (rowIdx : Nat) (name label stg : String) :
    stageWrites (thresholdAlert cfg rowIdx name label stg) = [stg] := by
  unfold thresholdAlert update_alert_stage
  rw [stageWrites_append, no_update_stageWrites (broadcast_no_update cfg _)]
  rfl

theorem emitsDone_thresholdAlert (cfg : Cfg) (rowIdx : Nat) (name label stg : String) :
    emitsDone (thresholdAlert cfg rowIdx name label stg) = false := by
  unfold thresholdAlert update_alert_stage
  rw [emitsDone_append, no_update_emitsDone (broadcast_no_update cfg _)]
  rfl

/-! ### Interval case analysis of the threshold chain

The four `if`-blocks of the source check disjoint `left_sec` bands, so on
each band the whole chain collapses to a single guarded alert block. -/

theorem runThresholds_high (cfg : Cfg) (rowIdx : Nat) (name : String) (left st)
    (h : 4 * 3600 < left) :
    runThresholds cfg rowIdx name left st = [] := by
  have h1 : ¬(left ≤ 14400) := by omega
  have h2 : ¬(left ≤ 7200) := by omega
  have h3 : ¬(left ≤ 3600) := by omega
  have h4 : ¬(left ≤ 1800) := by omega
  simp [runThresholds, h1, h2, h3, h4]

theorem runThresholds_band4 (cfg : Cfg) (rowIdx : Nat) (name : String) (left st)
    (hlo : 2 * 3600 < left) (hhi : left ≤ 4 * 3600) :
    runThresholds cfg rowIdx name left st =
      if stage_allowed st ("4H") then thresholdAlert cfg rowIdx name ("4시간") ("4H")
      else [] := by
  have h1 : left ≤ 14400 := by omega
  have h2 : 7200 < left := by omega
  have h3 : ¬(left ≤ 7200) := by omega
  have h4 : ¬(left ≤ 3600) := by omega
  have h5 : ¬(left ≤ 1800) := by omega
  simp [runThresholds, h1, h2, h3, h4, h5]

theorem runThresholds_band2 (cfg : Cfg) (rowIdx : Nat) (name : String) (left st)
    (hlo : 1 * 3600 < left) (hhi : left ≤ 2 * 3600) :
    runThresholds cfg rowIdx name left st =
      if stage_allowed st ("2H") then thresholdAlert cfg rowIdx name ("2시간") ("2H")
      else [] := by
  have h1 : ¬(7200 < left) := by omega
  have h2 : left ≤ 7200 := by omega
  have h3 : 3600 < left := by omega
  have h4 : ¬(left ≤ 3600) := by omega
  have h5 : ¬(left ≤ 1800) := by omega
  simp [runThresholds, h1, h2, h3, h4, h5]

theorem runThresholds_band1 (cfg : Cfg) (rowIdx : Nat) (name : String) (left st)
    (hlo : 30 * 60 < left) (hhi : left ≤ 1 * 3600) :
    runThresholds cfg rowIdx name left st =
      if stage_allowed st ("1H") then thresholdAlert cfg rowIdx name ("1시간") ("1H")
      else [] := by
  have h1 : ¬(7200 < left) := by omega
  have h2 : ¬(3600 < left) := by omega
  have h3 : left ≤ 3600 := by omega
  have h4 : 1800 < left := by omega
  have h5 : ¬(left ≤ 1800) := by omega
  simp [runThresholds, h1, h2, h3, h4, h5]

theorem runThresholds_band30 (cfg : Cfg) (rowIdx : Nat) (name : String) (left st)
    (hhi : left ≤ 30 * 60) :
    runThresholds cfg rowIdx name left st =
      if stage_allowed st ("30M") then thresholdAlert cfg rowIdx name ("30분") ("30M")
      else [] := by
  have h1 : ¬(7200 < left) := by omega
  have h2 : ¬(3600 < left) := by omega
  have h3 : ¬(1800 < left) := by omega
  have h4 : left ≤ 1800 := by omega
  simp [runThresholds, h1, h2, h3, h4]

/-- The chain fires at most one block: its output is empty or one single
guarded alert block. -/
theorem runThresholds_cases (cfg : Cfg) (rowIdx : Nat) (name : String) (left st) :
    runThresholds cfg rowIdx name left st = [] ∨
      ∃ label stg, runThresholds cfg rowIdx name left st =
        thresholdAlert cfg rowIdx name label stg := by
  by_cases h30 : left ≤ 30 * 60
  · rw [runThresholds_band30 cfg rowIdx name left st h30]
    split_ifs
    · exact Or.inr ⟨_, _, rfl⟩
    · exact Or.inl rfl
  · by_cases h1 : left ≤ 1 * 3600
    · rw [runThresholds_band1 cfg rowIdx name left st (by omega) h1]
      split_ifs
      · exact Or.inr ⟨_, _, rfl⟩
      · exact Or.inl rfl
    · by_cases h2 : left ≤ 2 * 3600
      · rw [runThresholds_band2 cfg rowIdx name left st (by omega) h2]
        split_ifs
        · exact Or.inr ⟨_, _, rfl⟩
        · exact Or.inl rfl
      · by_cases h4 : left ≤ 4 * 3600
        · rw [runThresholds_band4 cfg rowIdx name left st (by omega) h4]
          split_ifs
          · exact Or.inr ⟨_, _, rfl⟩
          · exact Or.inl rfl
        · exact Or.inl (runThresholds_high cfg rowIdx name left st (by omega))

/-- On positive remaining time, the sequential threshold chain of the
source computes exactly the claim-side rule: fire the most advanced stage
of the threshold table whose cutoff has been reached and whose order is
above the persisted stage's order, or nothing. -/
theorem runThresholds_spec (cfg : Cfg) (rowIdx : Nat) (name : String) (left : Int)
    (st : String) :
    runThresholds cfg rowIdx name left st =
      match specMostAdvancedStage left st with
      | some v => thresholdAlert cfg rowIdx name (labelFor v) v
      | none => [] := by
  by_cases h30 : left ≤ 1800
  · rw [runThresholds_band30 cfg rowIdx name left st (by omega),
      stage_allowed_eq_claimOrder st ("30M") 4 (by decide)]
    by_cases hc : claimOrder st < 4
    · have hspec : specMostAdvancedStage left st = some ("30M") := by
        unfold specMostAdvancedStage
        rw [if_pos ⟨h30, hc⟩]
      rw [hspec, decide_eq_true (show claimOrder st < ((4 : Nat) : Int) by omega)]
      simp [labelFor]
    · have hspec : specMostAdvancedStage left st = none := by
        unfold specMostAdvancedStage
        rw [if_neg (by rintro ⟨_, h⟩; omega), if_neg (by rintro ⟨_, h⟩; omega),
          if_neg (by rintro ⟨_, h⟩; omega), if_neg (by rintro ⟨_, h⟩; omega)]
      rw [hspec, decide_eq_false (show ¬(claimOrder st < ((4 : Nat) : Int)) by omega)]
      simp
  · by_cases h1 : left ≤ 3600
    · rw [runThresholds_band1 cfg rowIdx name left st (by omega) (by omega),
        stage_allowed_eq_claimOrder st ("1H") 3 (by decide)]
      by_cases hc : claimOrder st < 3
      · have hspec : specMostAdvancedStage left st = some ("1H") := by
          unfold specMostAdvancedStage
          rw [if_neg (by rintro ⟨h, _⟩; omega), if_pos ⟨h1, hc⟩]
        rw [hspec, decide_eq_true (show claimOrder st < ((3 : Nat) : Int) by omega)]
        simp [labelFor]
      · have hspec : specMostAdvancedStage left st = none := by
          unfold specMostAdvancedStage
          rw [if_neg (by rintro ⟨h, _⟩; omega), if_neg (by rintro ⟨_, h⟩; omega),
            if_neg (by rintro ⟨_, h⟩; omega), if_neg (by rintro ⟨_, h⟩; omega)]
        rw [hspec, decide_eq_false (show ¬(claimOrder st < ((3 : Nat) : Int)) by omega)]
        simp
    · by_cases h2 : left ≤ 7200
      · rw [runThresholds_band2 cfg rowIdx name left st (by omega) (by omega),
          stage_allowed_eq_claimOrder st ("2H") 2 (by decide)]
        by_cases hc : claimOrder st < 2
        · have hspec : specMostAdvancedStage left st = some ("2H") := by
            unfold specMostAdvancedStage
            rw [if_neg (by rintro ⟨h, _⟩; omega), if_neg (by rintro ⟨h, _⟩; omega),
              if_pos ⟨h2, hc⟩]
          rw [hspec, decide_eq_true (show claimOrder st < ((2 : Nat) : Int) by omega)]
          simp [labelFor]
        · have hspec : specMostAdvancedStage left st = none := by
            unfold specMostAdvancedStage
            rw [if_neg (by rintro ⟨h, _⟩; omega), if_neg (by rintro ⟨h, _⟩; omega),
              if_neg (by rintro ⟨_, h⟩; omega), if_neg (by rintro ⟨_, h⟩; omega)]
          rw [hspec, decide_eq_false (show ¬(claimOrder st < ((2 : Nat) : Int)) by omega)]
          simp
      · by_cases h4 : left ≤ 14400
        · rw [runThresholds_band4 cfg rowIdx name left st (by omega) (by omega),
            stage_allowed_eq_claimOrder st ("4H") 1 (by decide)]
          by_cases hc : claimOrder st < 1
          · have hspec : specMostAdvancedStage left st = some ("4H") := by
              unfold specMostAdvancedStage
              rw [if_neg (by rintro ⟨h, _⟩; omega), if_neg (by rintro ⟨h, _⟩; omega),
                if_neg (by rintro ⟨h, _⟩; omega), if_pos ⟨h4, hc⟩]
            rw [hspec, decide_eq_true (show claimOrder st < ((1 : Nat) : Int) by omega)]
            simp [labelFor]
          · have hspec : specMostAdvancedStage left st = none := by
              unfold specMostAdvancedStage
              rw [if_neg (by rintro ⟨h, _⟩; omega), if_neg (by rintro ⟨h, _⟩; omega),
                if_neg (by rintro ⟨h, _⟩; omega), if_neg (by rintro ⟨_, h⟩; omega)]
            rw [hspec, decide_eq_false (show ¬(claimOrder st < ((1 : Nat) : Int)) by omega)]
            simp
        · have hspec : specMostAdvancedStage left st = none := by
            unfold specMostAdvancedStage
            rw [if_neg (by rintro ⟨h, _⟩; omega), if_neg (by rintro ⟨h, _⟩; omega),
              if_neg (by rintro ⟨h, _⟩; omega), if_neg (by rintro ⟨h, _⟩; omega)]
          rw [hspec, runThresholds_high cfg rowIdx name left st (by omega)]

/-- Reduction of the per-row loop body on a RUNNING, parseable record. -/
theorem processRow_running (cfg : Cfg) (now : Int) (rowIdx : Nat) (row : List String)
    (start dur : Int)
    (hs : statusField row = "RUNNING")
    (hp : parse_datetime (startField row) = some start)
    (hd : pyInt (durField row) = some dur) :
    processRow cfg now rowIdx row =
      if start + dur - now ≤ 0 then
        broadcast_alert cfg (endedMsg cfg (nameField row)) ++ mark_timer_done rowIdx
      else
        runThresholds cfg rowIdx (nameField row) (start + dur - now) (stageField row) := by
  simp [processRow, hs, hp, hd]

/-- A row whose status is not RUNNING, or whose start time or duration
fails to parse, contributes no effect to the tick. -/
theorem processRow_unparseable_eq_nil (cfg : Cfg) (now : Int) (rowIdx : Nat)
    (row : List String)
    (h : parse_datetime (startField row) = none ∨ pyInt (durField row) = none) :
    processRow cfg now rowIdx row = [] := by
  by_cases hsr : statusField row ≠ "RUNNING"
  · simp [processRow, hsr]
  · have hs : statusField row = "RUNNING" := not_not.mp hsr
    rcases h with h | h
    · simp [processRow, hs, h]
    · cases hp : parse_datetime (startField row) with
      | none => simp [processRow, hs, hp]
      | some start => simp [processRow, hs, hp, h]

/-- Splitting the row loop around a list split, keeping the row numbers of
the second part. -/
theorem loopRows_append (cfg : Cfg) (now : Int) (xs ys : List (List String)) (idx : Nat) :
    loopRows cfg now idx (xs ++ ys) =
      loopRows cfg now idx xs ++ loopRows cfg now (idx + xs.length) ys := by
  induction xs generalizing idx with
  | nil => simp [loopRows]
  | cons x xs ih =>
      have harith : idx + 1 + xs.length = idx + (xs.length + 1) := by omega
      show processRow cfg now idx x ++ loopRows cfg now (idx + 1) (xs ++ ys) = _
      rw [ih (idx + 1), harith]
      simp [loopRows, List.length_cons]

/-- A stage produced by the claim-side threshold rule is a defined
threshold stage whose order lies strictly above the record's stage order. -/
theorem specMostAdvancedStage_sound {left : Int} {st v : String}
    (h : specMostAdvancedStage left st = some v) :
    ∃ j, stageIndex? v = some j ∧ 1 ≤ j ∧ j ≤ 4 ∧ claimOrder st < (j : Int) := by
  unfold specMostAdvancedStage at h
  split_ifs at h with h1 h2 h3 h4
  · injection h with h
    subst h
    exact ⟨4, by decide, by omega, by omega, by exact_mod_cast h1.2⟩
  · injection h with h
    subst h
    exact ⟨3, by decide, by omega, by omega, by exact_mod_cast h2.2⟩
  · injection h with h
    subst h
    exact ⟨2, by decide, by omega, by omega, by exact_mod_cast h3.2⟩
  · injection h with h
    subst h
    exact ⟨1, by decide, by omega, by omega, by exact_mod_cast h4.2⟩

/-! ## Claim C1 -/

/-- C1 counterexample: the claim says a stage/status transition is
persisted before, or atomically with, its notification and the
notification is never dispatched before the persisting write; on this
concrete RUNNING row whose timer has expired, the tick decides the
terminal transition (the status-DONE write is emitted) and the effect list
contains the send attempt strictly before the persisting writes. -/
theorem C1_counterexample :
    sendBeforePersistExists
      (processRow ⟨[5], fun _ => true, fun _ => true, []⟩ 1704067500 2
        ["강철8", "2024-01-01 00:00:00", "60", "RUNNING", "NONE"]) = true ∧
    emitsDone
      (processRow ⟨[5], fun _ => true, fun _ => true, []⟩ 1704067500 2
        ["강철8", "2024-01-01 00:00:00", "60", "RUNNING", "NONE"]) = true := by
  constructor <;> rfl

/-- C1 amended: in every per-row decision of the poll tick the order is
the reverse of the claimed one — the broadcast is dispatched first and the
persisting write follows; a persisting write never precedes a dispatch
attempt within one row's transition. -/
theorem C1_amended (cfg : Cfg) (now : Int) (rowIdx : Nat) (row : List String) :
    persistBeforeSendExists (processRow cfg now rowIdx row) = false := by
  by_cases hsr : statusField row ≠ "RUNNING"
  · simp [processRow, hsr, persistBeforeSendExists]
  · have hs : statusField row = "RUNNING" := not_not.mp hsr
    cases hp : parse_datetime (startField row) with
    | none => simp [processRow, hs, hp, persistBeforeSendExists]
    | some start =>
        cases hd : pyInt (durField row) with
        | none => simp [processRow, hs, hp, hd, persistBeforeSendExists]
        | some dur =>
            rw [processRow_running cfg now rowIdx row start dur hs hp hd]
            split_ifs with hle
            · apply persistBeforeSend_append (broadcast_no_update cfg _)
              intro e he
              simp only [mark_timer_done, List.mem_cons, List.mem_singleton,
                List.not_mem_nil, or_false] at he
              rcases he with rfl | rfl <;> rfl
            · rcases runThresholds_cases cfg rowIdx (nameField row)
                (start + dur - now) (stageField row) with hrt | ⟨label, stg, hrt⟩
              · rw [hrt]
                rfl
              · rw [hrt]
                unfold thresholdAlert
                apply persistBeforeSend_append (broadcast_no_update cfg _)
                intro e he
                simp only [update_alert_stage, List.mem_singleton] at he
                subst he
                rfl

/-! ## Claim C2 -/

/-- C2 counterexample: the claim conditions the terminal output on the
persisted stage not being DONE; this RUNNING record with stage DONE and
expired timer still gets the terminal `Advance(DONE)` output (the source
only re-checks `status == "RUNNING"`, never the stage). -/
theorem C2_counterexample :
    stageField ["강철9", "2024-01-01 00:00:00", "100", "RUNNING", "DONE"] = "DONE" ∧
    emitsDone
      (processRow ⟨[7], fun _ => true, fun _ => true, []⟩ 1704067500 2
        ["강철9", "2024-01-01 00:00:00", "100", "RUNNING", "DONE"]) = true := by
  constructor <;> rfl

/-- C2 amended: for a RUNNING record with parseable start time and
duration, the terminal `Advance(DONE, "timer ended")` — broadcast followed
by the status-DONE and stage-DONE writes — fires iff remaining ≤ 0,
regardless of the persisted stage value; and when it fires, the row's
whole output is that terminal block, so no threshold transition is emitted
in the same invocation. -/
theorem C2_amended (cfg : Cfg) (now : Int) (rowIdx : Nat) (row : List String)
    (start dur : Int)
    (hs : statusField row = "RUNNING")
    (hp : parse_datetime (startField row) = some start)
    (hd : pyInt (durField row) = some dur) :
    (emitsDone (processRow cfg now rowIdx row) = true ↔ start + dur - now ≤ 0) ∧
    (start + dur - now ≤ 0 →
      processRow cfg now rowIdx row =
        broadcast_alert cfg (endedMsg cfg (nameField row)) ++
          [Effect.updateCell rowIdx 4 ("DONE"), Effect.updateCell rowIdx 5 ("DONE")]) := by
  rw [processRow_running cfg now rowIdx row start dur hs hp hd]
  by_cases hle : start + dur - now ≤ 0
  · rw [if_pos hle]
    refine ⟨⟨fun _ => hle, fun _ => ?_⟩, fun _ => rfl⟩
    rw [emitsDone_append, no_update_emitsDone (broadcast_no_update cfg _)]
    rfl
  · rw [if_neg hle]
    have hrt0 : emitsDone (runThresholds cfg rowIdx (nameField row)
        (start + dur - now) (stageField row)) = false := by
      rcases runThresholds_cases cfg rowIdx (nameField row)
        (start + dur - now) (stageField row) with hrt | ⟨label, stg, hrt⟩
      · rw [hrt]
        rfl
      · rw [hrt]
        exact emitsDone_thresholdAlert cfg rowIdx (nameField row) label stg
    rw [hrt0]
    exact ⟨⟨fun hh => absurd hh (by simp), fun hh => absurd hh hle⟩,
      fun hh => absurd hh hle⟩

/-- C2 witness: a concrete expired RUNNING row whose tick output is
exactly the terminal block — broadcast, then the two DONE writes. -/
theorem C2_witness :
    processRow ⟨[8], fun _ => true, fun _ => true, []⟩ 1704067400 2
      ["강철2", "2024-01-01 00:00:00", "100", "RUNNING", "NONE"] =
      broadcast_alert ⟨[8], fun _ => true, fun _ => true, []⟩
        (endedMsg ⟨[8], fun _ => true, fun _ => true, []⟩ ("강철2")) ++
      [Effect.updateCell 2 4 ("DONE"), Effect.updateCell 2 5 ("DONE")] :=
  (C2_amended ⟨[8], fun _ => true, fun _ => true, []⟩ 1704067400 2
    (["강철2", "2024-01-01 00:00:00", "100", "RUNNING", "NONE"]) 1704067200 100
    rfl (by decide) (by decide)).2 (by decide)

/-! ## Claim C3 -/

/-- C3: for a RUNNING record with parseable fields and positive remaining
time, the tick emits at most one stage transition — precisely the most
advanced stage of the threshold table whose cutoff covers the remaining
time and whose order exceeds the persisted stage's order (its alert block:
broadcast, then the single stage write) — and nothing else; intermediate
stages crossed since the previous poll are skipped, never alerted. -/
theorem C3_most_advanced_stage (cfg : Cfg) (now : Int) (rowIdx : Nat)
    (row : List String) (start dur : Int)
    (hs : statusField row = "RUNNING")
    (hp : parse_datetime (startField row) = some start)
    (hd : pyInt (durField row) = some dur)
    (hpos : 0 < start + dur - now) :
    processRow cfg now rowIdx row =
      match specMostAdvancedStage (start + dur - now) (stageField row) with
      | some v => thresholdAlert cfg rowIdx (nameField row) (labelFor v) v
      | none => [] := by
  rw [processRow_running cfg now rowIdx row start dur hs hp hd, if_neg (by omega)]
  exact runThresholds_spec cfg rowIdx (nameField row) (start + dur - now) (stageField row)

/-- C3 witness: a record at stage NONE with 25 minutes remaining emits
exactly the 30M transition (one send attempt, one stage write), skipping
the intermediate 4H/2H/1H stages. -/
theorem C3_witness :
    processRow ⟨[1], fun _ => true, fun _ => true, []⟩ (1704067200 + 43200 - 1500) 2
      ["강철3", "2024-01-01 00:00:00", "43200", "RUNNING", "NONE"] =
      [Effect.sendAttempt 1 ("⏳ **강철3 타이머 30분 전입니다!**"),
       Effect.updateCell 2 5 ("30M")] := by
  have h := C3_most_advanced_stage ⟨[1], fun _ => true, fun _ => true, []⟩
    (1704067200 + 43200 - 1500) 2
    ["강철3", "2024-01-01 00:00:00", "43200", "RUNNING", "NONE"]
    1704067200 43200 rfl (by decide) (by decide) (by decide)
  exact h.trans (by decide)

/-! ## Claim C4 -/

/-- C4 counterexample: the claim says every stage write of the poll loop
is strictly later in the order than the stage it read; this RUNNING row
already at stage DONE with an expired timer gets its stage written as DONE
again — equal, not strictly later. -/
theorem C4_counterexample :
    stageField ["강철7", "2024-01-01 00:00:00", "50", "RUNNING", "DONE"] = "DONE" ∧
    stageWrites
      (processRow ⟨[9], fun _ => true, fun _ => true, []⟩ 1704070000 2
        ["강철7", "2024-01-01 00:00:00", "50", "RUNNING", "DONE"]) = ["DONE"] ∧
    ¬(claimOrder ("DONE") < claimOrder ("DONE")) := by
  refine ⟨rfl, rfl, by decide⟩

/-- C4 amended: for a record whose persisted stage is a defined value,
every stage write of the poll loop is no earlier in the order than the
stage read — strictly later unless it is the terminal DONE write (which
can re-write DONE over DONE) — so the persisted stage never decreases. -/
theorem C4_amended (cfg : Cfg) (now : Int) (rowIdx : Nat) (row : List String)
    (i : Nat) (hi : stageIndex? (stageField row) = some i) :
    ∀ v ∈ stageWrites (processRow cfg now rowIdx row),
      ∃ j, stageIndex? v = some j ∧ i ≤ j ∧ (v ≠ "DONE" → i < j) := by
  intro v hv
  by_cases hsr : statusField row ≠ "RUNNING"
  · rw [processRow, if_pos hsr] at hv
    simp [stageWrites] at hv
  · have hs : statusField row = "RUNNING" := not_not.mp hsr
    cases hp : parse_datetime (startField row) with
    | none =>
        rw [processRow_unparseable_eq_nil cfg now rowIdx row (Or.inl hp)] at hv
        simp [stageWrites] at hv
    | some start =>
        cases hd : pyInt (durField row) with
        | none =>
            rw [processRow_unparseable_eq_nil cfg now rowIdx row (Or.inr hd)] at hv
            simp [stageWrites] at hv
        | some dur =>
            rw [processRow_running cfg now rowIdx row start dur hs hp hd] at hv
            split_ifs at hv with hle
            · rw [stageWrites_append,
                no_update_stageWrites (broadcast_no_update cfg _)] at hv
              have hv' : v = "DONE" := by
                simpa [stageWrites, mark_timer_done] using hv
              subst hv'
              exact ⟨5, by decide, stageIndex?_bound hi, fun hne => absurd rfl hne⟩
            · rw [runThresholds_spec cfg rowIdx (nameField row)
                (start + dur - now) (stageField row)] at hv
              cases hspec : specMostAdvancedStage (start + dur - now) (stageField row) with
              | none =>
                  rw [hspec] at hv
                  simp [stageWrites] at hv
              | some w =>
                  rw [hspec, stageWrites_thresholdAlert] at hv
                  have hv' : v = w := by simpa using hv
                  subst hv'
                  obtain ⟨j, hj, hj1, hj4, hlt⟩ := specMostAdvancedStage_sound hspec
                  have hio : (i : Int) < (j : Int) := by
                    have : claimOrder (stageField row) = (i : Int) := by
                      unfold claimOrder
                      rw [hi]
                    omega
                  exact ⟨j, hj, by omega, fun _ => by omega⟩

/-- C4 witness: on a record read at stage NONE (order 0) with 25 minutes
remaining, the single stage write 30M is strictly later in the order. -/
theorem C4_witness :
    ∃ j, stageIndex? ("30M") = some j ∧ 0 ≤ j ∧ (("30M" : String) ≠ "DONE" → 0 < j) :=
  C4_amended ⟨[4], fun _ => true, fun _ => true, []⟩ (1704067200 + 43200 - 1500) 2
    (["강철6", "2024-01-01 00:00:00", "43200", "RUNNING", "NONE"]) 0 (by decide)
    ("30M") (by decide)

/-! ## Claim C5 -/

/-- C5: an unrecognized persisted stage is fail-open — `stage_allowed`
permits a transition from it to any stage, so such a record is eligible
for every applicable transition — and concretely, a RUNNING record with
stage "GARBAGE" and 25 minutes remaining fires exactly the 30M
transition. -/
theorem C5_failopen :
    (∀ prev, stageIndex? prev = none → ∀ cur, stage_allowed prev cur = true) ∧
    processRow ⟨[3], fun _ => true, fun _ => true, []⟩ (1704067200 + 43200 - 1500) 2
      ["강철5", "2024-01-01 00:00:00", "43200", "RUNNING", "GARBAGE"] =
      [Effect.sendAttempt 3 ("⏳ **강철5 타이머 30분 전입니다!**"),
       Effect.updateCell 2 5 ("30M")] := by
  constructor
  · intro prev hprev cur
    unfold stage_allowed
    rw [hprev]
  · rfl

/-- C5 witness: the fail-open rule applied at the concrete unrecognized
stage "GARBAGE" against the 30M stage. -/
theorem C5_witness : stage_allowed ("GARBAGE") ("30M") = true :=
  C5_failopen.1 ("GARBAGE") (by decide) ("30M")

/-! ## Claim C6 -/

/-- C6: a row whose start time fails both accepted formats or whose
duration is non-numeric produces no effect at all in a poll tick — no cell
write and no dispatch for it, never a default value — and the tick around
it splits into the untouched contributions of the earlier and later rows,
which keep their own row numbers. -/
theorem C6_bad_row_skipped :
    (∀ (cfg : Cfg) (now : Int) (rowIdx : Nat) (row : List String),
      parse_datetime (startField row) = none ∨ pyInt (durField row) = none →
      processRow cfg now rowIdx row = []) ∧
    (∀ (cfg : Cfg) (now : Int) (hdr : List String) (pre : List (List String))
      (b : List String) (post : List (List String)),
      parse_datetime (startField b) = none ∨ pyInt (durField b) = none →
      timer_checker cfg now (hdr :: (pre ++ b :: post)) =
        loopRows cfg now 2 pre ++ loopRows cfg now (2 + pre.length + 1) post) := by
  constructor
  · exact processRow_unparseable_eq_nil
  · intro cfg now hdr pre b post h
    show loopRows cfg now 2 (pre ++ b :: post) = _
    rw [loopRows_append cfg now pre (b :: post) 2]
    show loopRows cfg now 2 pre ++
      (processRow cfg now (2 + pre.length) b ++ loopRows cfg now (2 + pre.length + 1) post) = _
    rw [processRow_unparseable_eq_nil cfg now (2 + pre.length) b h, List.nil_append]

/-- C6 witness: a tick over a sheet whose only data row has an unparseable
start time performs no effect. -/
theorem C6_witness :
    timer_checker ⟨[2], fun _ => true, fun _ => true, []⟩ 0
      [["header"], ["bad", "garbage", "5", "RUNNING", ""]] = [] := by
  have h := C6_bad_row_skipped.2 ⟨[2], fun _ => true, fun _ => true, []⟩ 0
    (["header"]) [] (["bad", "garbage", "5", "RUNNING", ""]) [] (Or.inl (by decide))
  simpa [loopRows] using h

/-! ## Claim C7 -/

/-- First-match characterization of the `find_row` scan, for an arbitrary
starting row number. -/
theorem findRowAux_some_iff (t : String) (rows : List (List String)) (idx r : Nat) :
    findRowAux t idx rows = some r ↔
      ∃ k row, rows.get? k = some row ∧
        row.any (fun cell => removeSpaces cell = t) = true ∧
        r = idx + k ∧
        ∀ j row', j < k → rows.get? j = some row' →
          row'.any (fun cell => removeSpaces cell = t) = false := by
  induction rows generalizing idx with
  | nil => simp [findRowAux]
  | cons row rest ih =>
      by_cases hhit : row.any (fun cell => removeSpaces cell = t) = true
      · simp only [findRowAux, hhit, if_true]
        constructor
        · intro h
          injection h with h
          exact ⟨0, row, rfl, hhit, by omega, fun j row' hj _ => absurd hj (by omega)⟩
        · rintro ⟨k, row0, hget, hany, hr, hmin⟩
          cases k with
          | zero =>
              subst hr
              simp
          | succ k' =>
              exact absurd hhit (by simp [hmin 0 row (by omega) rfl])
      · have hhit' : row.any (fun cell => removeSpaces cell = t) = false := by
          simpa using hhit
        simp only [findRowAux, hhit', Bool.false_eq_true, if_false]
        rw [ih (idx + 1)]
        constructor
        · rintro ⟨k, row0, hget, hany, hr, hmin⟩
          refine ⟨k + 1, row0, by simpa using hget, hany, by omega, ?_⟩
          intro j row' hj hget'
          cases j with
          | zero =>
              have hrr : row = row' := by simpa using hget'
              subst hrr
              exact hhit'
          | succ j' => exact hmin j' row' (by omega) (by simpa using hget')
        · rintro ⟨k, row0, hget, hany, hr, hmin⟩
          cases k with
          | zero =>
              have hrr : row = row0 := by simpa using hget
              subst hrr
              exact absurd hany (by simp [hhit'])
          | succ k' =>
              refine ⟨k', row0, by simpa using hget, hany, by omega, ?_⟩
              intro j row' hj hget'
              exact hmin (j + 1) row' (by omega) (by simpa using hget')

/-- C7 counterexample: the claim says the requested key and each stored
cell are compared after removing whitespace; under whitespace removal the
cell "강철\t1" (tab inside) and the key "강철1" are identical, yet
`find_row` does not resolve the key to that row — the source removes only
space characters, not all whitespace. -/
theorem C7_counterexample :
    stripAllWhitespace ("강철\t1") = stripAllWhitespace ("강철1") ∧
    find_row [["강철\t1"]] ("강철1") = none := by
  constructor <;> rfl

/-- C7 amended: key lookup compares the requested key and each stored cell
after removing space characters (U+0020 only, not all whitespace), so
lookups agree on any two keys with the same space-stripped form — in
particular "강철 1" and "강철1" resolve to the same row on every sheet —
and `find_row` returns exactly the first row in sheet order containing a
matching cell. -/
theorem C7_amended :
    (∀ (data : List (List String)) (kw1 kw2 : String),
      removeSpaces kw1 = removeSpaces kw2 → find_row data kw1 = find_row data kw2) ∧
    removeSpaces ("강철 1") = removeSpaces ("강철1") ∧
    (∀ (data : List (List String)) (kw : String) (r : Nat),
      find_row data kw = some r ↔
        ∃ k row, data.get? k = some row ∧
          row.any (fun cell => removeSpaces cell = removeSpaces kw) = true ∧
          r = 1 + k ∧
          ∀ j row', j < k → data.get? j = some row' →
            row'.any (fun cell => removeSpaces cell = removeSpaces kw) = false) := by
  refine ⟨?_, rfl, ?_⟩
  · intro data kw1 kw2 h
    unfold find_row
    rw [h]
  · intro data kw r
    exact findRowAux_some_iff (removeSpaces kw) data 1 r

/-- C7 witness: the characterization applied concretely — on a sheet whose
rows 1 and 2 both contain a space-variant of the key, "강철 1" and "강철1"
both resolve to row 1, the first match. -/
theorem C7_witness :
    find_row [["강철 1"], ["강철1"]] ("강철 1") = find_row [["강철 1"], ["강철1"]] ("강철1") ∧
    find_row [["강철 1"], ["강철1"]] ("강철1") = some 1 := by
  constructor
  · exact C7_amended.1 ([["강철 1"], ["강철1"]]) ("강철 1") ("강철1") rfl
  · exact (C7_amended.2.2 ([["강철 1"], ["강철1"]]) ("강철1") 1).mpr
      ⟨0, ["강철 1"], rfl, by decide, rfl, fun j row' hj _ => absurd hj (by omega)⟩

/-! ## Claim C8 -/

/-- C8: broadcasting with an empty configured sink list performs no
delivery and emits exactly one log line; the call returns normally (the
model is a total function — this path has no exception). -/
theorem C8_empty_sinks (cfg : Cfg) (msg : String) (h : cfg.alertChannelIds = []) :
    broadcast_alert cfg msg = [Effect.log ("ERROR: Alert channel list is empty.")] := by
  unfold broadcast_alert
  rw [if_pos h]

/-- C8 witness: `broadcast("x")` against an empty sink list is exactly the
one log effect. -/
theorem C8_witness :
    broadcast_alert ⟨[], fun _ => true, fun _ => true, []⟩ ("x") =
      [Effect.log ("ERROR: Alert channel list is empty.")] :=
  C8_empty_sinks ⟨[], fun _ => true, fun _ => true, []⟩ ("x") rfl

/-! ## Claim C9 -/

/-- C9: the `!강철 N` command on a stored RUNNING timer whose remaining
time is ≤ 0 only replies that the timer already ended — its entire effect
list is that one reply, so no cell of the row (or of any row) is written:
the status stays RUNNING and every cell keeps its prior value until the
background poll processes the row. -/
theorem C9_already_ended (now : Int) (nowStr : String) (data : List (List String))
    (number : String) (r : Nat) (name : String) (start dur : Int) (astage : String)
    (hrow : find_row data ("강철" ++ number) = some r)
    (hdata : get_timer_data data r = some (name, start, dur, "RUNNING", astage))
    (hleft : start + dur - now ≤ 0) :
    cmd_steel now nowStr data number =
      [Effect.reply ("🔔 " ++ ("강철" ++ number) ++ " 타이머는 이미 종료되었습니다.")] := by
  simp [cmd_steel, hrow, hdata, hleft]

/-- C9 witness: a concrete expired RUNNING row — the command leaves the
sheet untouched and only replies. -/
theorem C9_witness :
    cmd_steel 1704117200 ("2024-01-01 13:53:20")
      [["강철4", "2024-01-01 00:00:00", "100", "RUNNING", "NONE"]] ("4") =
      [Effect.reply ("🔔 " ++ ("강철" ++ "4") ++ " 타이머는 이미 종료되었습니다.")] :=
  C9_already_ended 1704117200 ("2024-01-01 13:53:20")
    ([["강철4", "2024-01-01 00:00:00", "100", "RUNNING", "NONE"]]) ("4") 1
    ("강철4") 1704067200 100 ("NONE") (by decide) (by decide) (by decide)

/-! ## Claim C10 -/

/-- C10: broadcasting over a non-empty sink list runs the per-channel loop
over the configured ids in list order; the loop distributes over list
concatenation (so each id's contribution is independent and ordered); an
id that does not resolve to a channel contributes nothing — no send
attempt, no log —, while a resolvable id always gets a send attempt, with
an error log only when the send itself fails. -/
theorem C10_unresolvable_skipped :
    (∀ (cfg : Cfg) (msg : String), cfg.alertChannelIds ≠ [] →
      broadcast_alert cfg msg = loopChannels cfg cfg.alertChannelIds msg) ∧
    (∀ (cfg : Cfg) (msg : String) (xs ys : List Int),
      loopChannels cfg (xs ++ ys) msg = loopChannels cfg xs msg ++ loopChannels cfg ys msg) ∧
    (∀ (cfg : Cfg) (msg : String) (cid : Int), cfg.getChannel cid = false →
      loopChannels cfg [cid] msg = []) ∧
    (∀ (cfg : Cfg) (msg : String) (cid : Int), cfg.getChannel cid = true →
      loopChannels cfg [cid] msg =
        Effect.sendAttempt cid msg ::
          (if cfg.sendOk cid then [] else [Effect.sendError cid])) := by
  refine ⟨?_, ?_, ?_, ?_⟩
  · intro cfg msg h
    unfold broadcast_alert
    rw [if_neg h]
  · intro cfg msg xs ys
    induction xs with
    | nil => simp [loopChannels]
    | cons x xs ih =>
        show (if cfg.getChannel x then _ else []) ++ loopChannels cfg (xs ++ ys) msg = _
        rw [ih]
        simp [loopChannels, List.append_assoc]
  · intro cfg msg cid h
    simp [loopChannels, h]
  · intro cfg msg cid h
    simp [loopChannels, h]

/-- C10 witness: an unresolvable channel id contributes no effect. -/
theorem C10_witness :
    loopChannels ⟨[], fun _ => false, fun _ => true, []⟩ [42] ("x") = [] :=
  C10_unresolvable_skipped.2.2.1 ⟨[], fun _ => false, fun _ => true, []⟩ ("x") 42 rfl

end SteelBot
